import Mathlib

/-!
Verification of the connection-management core (`connection_mgr.py`, `sockpool.py`)
against its natural-language specification.  The Python code is shallowly embedded:
dictionaries become association lists preserving insertion order, wall-clock times
and float timeouts become rationals, sockets are identified by natural numbers, and
the ambient behaviour of the operating system (peer names, readability, validity of
file descriptors, dial outcomes) is supplied as an explicit environment.
-/

/- ## Basic modelling types -/

/-- Socket addresses: an (ip, port) pair, as produced by `getpeername`. -/
abbrev Addr := String × Nat

/-- Sockets are identified by a numeric identity (standing for the object id). -/
abbrev Sock := Nat

/-- Ambient per-socket facts supplied by the operating system: the peer address
(`getpeername`), whether a zero-timeout `select` reports the socket readable, and
whether the file descriptor is still valid (`fileno()` does not raise). -/
structure SockInfo where
  peer : Addr
  readable : Bool
  valid : Bool

/- ## Python dict model: association lists preserving insertion order -/

/-- Model of `d[k] = v` on a Python dict: replace in place if the key exists,
otherwise append a new entry at the end. -/
def dictSet [BEq κ] : List (κ × β) → κ → β → List (κ × β)
  | [], k, v => [(k, v)]
  | (k', v') :: rest, k, v =>
    if k == k' then (k, v) :: rest else (k', v') :: dictSet rest k v

/-- Model of `del d[k]` on a Python dict (keys are unique in reachable states). -/
def dictDel [BEq κ] : List (κ × β) → κ → List (κ × β)
  | [], _ => []
  | (k', v') :: rest, k =>
    if k == k' then rest else (k', v') :: dictDel rest k

/-- Python `max` over a nonempty list of `(idle_time, sock)` pairs compared
lexicographically; on ties the first maximal element is kept, exactly as the
builtin scans left to right replacing only on strictly greater elements. -/
def pyMax : List (ℚ × Sock) → (ℚ × Sock) → (ℚ × Sock)
  | [], best => best
  | x :: rest, best =>
    pyMax rest (if best.1 < x.1 ∨ (best.1 = x.1 ∧ best.2 < x.2) then x else best)

/-- Python `max(list)` returning `none` on the empty list (where the builtin
would raise `ValueError`; all call sites below are on nonempty lists). -/
def pyMaxList : List (ℚ × Sock) → Option (ℚ × Sock)
  | [] => none
  | h :: t => some (pyMax t h)

/-- Python 2 integer division `a / b`: floor division. -/
def py2div (a b : Int) : Int := Int.fdiv a b

/- ## SockPool (sockpool.py) -/

/-- State of `sockpool.SockPool`: the idle-socket structures and the caps. -/
structure SockPool where
  timeout : ℚ
  free_socks_by_addr : List (Addr × List Sock)
  sock_idle_times : List (Sock × ℚ)
  total_sockets : Nat
  max_socks_by_addr : List (Addr × Nat)
  default_max_socks_per_addr : Nat
  max_sockets : Nat

/-- Constructor `SockPool.__init__(self, timeout=0.25, max_sockets=800)`.
Note that the body assigns the literal `800` to `self.max_sockets`, ignoring
the `max_sockets` parameter. -/
def SockPool.init (timeout : ℚ) (max_sockets : Nat) : SockPool :=
  { timeout := timeout
    free_socks_by_addr := []
    sock_idle_times := []
    total_sockets := 0
    max_socks_by_addr := []
    default_max_socks_per_addr := 50
    max_sockets := 800 }

/-- STEP 1 of `SockPool.cull` for one address: sockets idle longer than the pool
timeout go to the culled list; of the rest, only those with a valid descriptor
survive (a dead descriptor is dropped silently, neither live nor culled). -/
def cullStep1 (env : Sock → SockInfo) (now timeout : ℚ) (idle : List (Sock × ℚ)) :
    List Sock → List Sock × List Sock
  | [] => ([], [])
  | s :: rest =>
    let lc := cullStep1 env now timeout idle rest
    if now - ((idle.lookup s).getD 0) > timeout then (lc.1, s :: lc.2)
    else if (env s).valid then (s :: lc.1, lc.2)
    else (lc.1, lc.2)

/-- `SockPool.cull`: for every address, age out stale sockets, drop dead
descriptors, then drop readable (corrupted) survivors; rebuild the free lists,
recompute `total_sockets` from scratch, delete the idle entries of culled
sockets and hand them to the async kill path.  Returns the new pool and the
list of sockets passed to `killsock`. -/
def SockPool.cull (env : Sock → SockInfo) (now : ℚ) (p : SockPool) :
    SockPool × List Sock :=
  let results := p.free_socks_by_addr.map (fun av =>
    let lc := cullStep1 env now p.timeout p.sock_idle_times av.2
    let live := lc.1.filter (fun s => !(env s).readable)
    let readable := lc.1.filter (fun s => (env s).readable)
    (av.1, live, lc.2 ++ readable))
  let culled := (results.map (fun r => r.2.2)).flatten
  ({ p with
      free_socks_by_addr := results.map (fun r => (r.1, r.2.1))
      total_sockets := (results.map (fun r => r.2.1.length)).sum
      sock_idle_times := culled.foldl (fun d s => dictDel d s) p.sock_idle_times },
   culled)

/-- `SockPool.acquire(addr)`: cull first (exceptions from cull are swallowed in
the source; the model of cull is total), then pop the most recently released
socket for the address, if any, deleting its idle-time entry.  Note the source
does not decrement `total_sockets` on a successful pop.  Returns the new pool,
the popped socket (if any) and the sockets killed by the embedded cull. -/
def SockPool.acquire (env : Sock → SockInfo) (now : ℚ) (p : SockPool) (addr : Addr) :
    SockPool × Option Sock × List Sock :=
  let pk := SockPool.cull env now p
  let socks := (pk.1.free_socks_by_addr.lookup addr).getD []
  if socks.isEmpty then (pk.1, none, pk.2)
  else
    let sock := socks.getLast?.getD 0
    ({ pk.1 with
        free_socks_by_addr := dictSet pk.1.free_socks_by_addr addr socks.dropLast
        sock_idle_times := dictDel pk.1.sock_idle_times sock },
     some sock, pk.2)

/-- `SockPool.release(sock)`: if `select` raises (invalid descriptor) return
without retaining; if the socket is readable it is corrupted, kill it and
return.  Otherwise append it to the free list of its peer address, record its
idle time, increment `total_sockets`, and enforce the caps: at or above the
per-address cap evict the socket with the maximal `(idle_time, sock)` pair for
that address, else at or above the global cap evict the maximal such pair over
the whole idle map.  The evicted socket is removed from both structures and the
counter is decremented, but it is not handed to the kill path.  Returns the new
pool and the list of sockets passed to `killsock`. -/
def SockPool.release (env : Sock → SockInfo) (now : ℚ) (p : SockPool) (sock : Sock) :
    SockPool × List Sock :=
  if !(env sock).valid then (p, [])
  else if (env sock).readable then (p, [sock])
  else
    let addr := (env sock).peer
    let addr_socks := ((p.free_socks_by_addr.lookup addr).getD []) ++ [sock]
    let free₁ := dictSet p.free_socks_by_addr addr addr_socks
    let total₁ := p.total_sockets + 1
    let idle₁ := dictSet p.sock_idle_times sock now
    let cap := (p.max_socks_by_addr.lookup addr).getD p.default_max_socks_per_addr
    let culled : Option Sock :=
      if cap ≤ addr_socks.length then
        (pyMaxList (addr_socks.map (fun a => ((idle₁.lookup a).getD 0, a)))).map (fun m => m.2)
      else if p.max_sockets ≤ total₁ then
        (pyMaxList (idle₁.map (fun kv => (kv.2, kv.1)))).map (fun m => m.2)
      else none
    match culled with
    | none =>
      ({ p with free_socks_by_addr := free₁, sock_idle_times := idle₁,
                total_sockets := total₁ }, [])
    | some c =>
      let cAddr := (env c).peer
      ({ p with
          total_sockets := total₁ - 1
          free_socks_by_addr := dictSet free₁ cAddr (((free₁.lookup cAddr).getD []).erase c)
          sock_idle_times := dictDel idle₁ c }, [])

example :
    SockPool.release (fun _ => ⟨("a", 1), false, true⟩) 100 (SockPool.init (1/4) 800) 7
      = ({ SockPool.init (1/4) 800 with
            free_socks_by_addr := [(("a", 1), [7])]
            sock_idle_times := [(7, 100)]
            total_sockets := 1 }, []) := by
  norm_num [SockPool.release, SockPool.init, dictSet, pyMaxList, pyMax, List.lookup]

example :
    SockPool.acquire (fun _ => ⟨("a", 1), false, true⟩) 100
      { SockPool.init (1/4) 800 with
          free_socks_by_addr := [(("a", 1), [7])]
          sock_idle_times := [(7, 100)]
          total_sockets := 1 } ("a", 1)
      = ({ SockPool.init (1/4) 800 with
            free_socks_by_addr := [(("a", 1), [])]
            sock_idle_times := []
            total_sockets := 1 }, some 7, []) := by
  norm_num [SockPool.acquire, SockPool.cull, SockPool.init, cullStep1, dictSet, dictDel,
    List.lookup]

/- ## Sorting (models Python list.sort on (key, address) tuples) -/

/-- Python tuple comparison on addresses: lexicographic on (ip, port). -/
def addrLe (x y : Addr) : Bool :=
  if x.1 < y.1 then true else if y.1 < x.1 then false else x.2 ≤ y.2

/-- Python tuple comparison on `(sort_key, address)` pairs: lexicographic. -/
def lexLe (a b : ℚ × Addr) : Bool :=
  if a.1 < b.1 then true else if b.1 < a.1 then false else addrLe a.2 b.2

/-- Insert into a sorted list, modelling one step of an ascending stable sort. -/
def sinsert (le : α → α → Bool) (a : α) : List α → List α
  | [] => [a]
  | b :: l => if le a b then a :: b :: l else b :: sinsert le a l

/-- Ascending stable sort, modelling Python `list.sort()`.  Its output agrees
with the builtin sort up to the relative order of exactly-equal tuples, which
are indistinguishable as values. -/
def ssort (le : α → α → Bool) : List α → List α
  | [] => []
  | a :: l => sinsert le a (ssort le l)

theorem addrLe_iff {x y : Addr} :
    addrLe x y = true ↔ x.1 < y.1 ∨ (x.1 = y.1 ∧ x.2 ≤ y.2) := by
  unfold addrLe
  rcases lt_trichotomy x.1 y.1 with h | h | h
  · simp [h]
  · simp [h, lt_irrefl]
  · rw [if_neg (lt_asymm h), if_pos h]
    simp [lt_asymm h, ne_of_gt h]

theorem lexLe_iff {a b : ℚ × Addr} :
    lexLe a b = true ↔ a.1 < b.1 ∨ (a.1 = b.1 ∧ addrLe a.2 b.2 = true) := by
  unfold lexLe
  rcases lt_trichotomy a.1 b.1 with h | h | h
  · simp [h]
  · simp [h, lt_irrefl]
  · rw [if_neg (lt_asymm h), if_pos h]
    simp [lt_asymm h, ne_of_gt h]

theorem addrLe_total (x y : Addr) : addrLe x y = true ∨ addrLe y x = true := by
  rcases lt_trichotomy x.1 y.1 with h | h | h
  · exact Or.inl (addrLe_iff.mpr (Or.inl h))
  · rcases Nat.le_total x.2 y.2 with h2 | h2
    · exact Or.inl (addrLe_iff.mpr (Or.inr ⟨h, h2⟩))
    · exact Or.inr (addrLe_iff.mpr (Or.inr ⟨h.symm, h2⟩))
  · exact Or.inr (addrLe_iff.mpr (Or.inl h))

theorem lexLe_total (a b : ℚ × Addr) : lexLe a b = true ∨ lexLe b a = true := by
  rcases lt_trichotomy a.1 b.1 with h | h | h
  · exact Or.inl (lexLe_iff.mpr (Or.inl h))
  · rcases addrLe_total a.2 b.2 with h2 | h2
    · exact Or.inl (lexLe_iff.mpr (Or.inr ⟨h, h2⟩))
    · exact Or.inr (lexLe_iff.mpr (Or.inr ⟨h.symm, h2⟩))
  · exact Or.inr (lexLe_iff.mpr (Or.inl h))

theorem addrLe_trans {x y z : Addr} (h1 : addrLe x y = true) (h2 : addrLe y z = true) :
    addrLe x z = true := by
  rcases addrLe_iff.mp h1 with a | ⟨a, a2⟩ <;> rcases addrLe_iff.mp h2 with b | ⟨b, b2⟩
  · exact addrLe_iff.mpr (Or.inl (lt_trans a b))
  · exact addrLe_iff.mpr (Or.inl (lt_of_lt_of_eq a b))
  · exact addrLe_iff.mpr (Or.inl (lt_of_eq_of_lt a b))
  · exact addrLe_iff.mpr (Or.inr ⟨a.trans b, le_trans a2 b2⟩)

theorem lexLe_trans {a b c : ℚ × Addr} (h1 : lexLe a b = true) (h2 : lexLe b c = true) :
    lexLe a c = true := by
  rcases lexLe_iff.mp h1 with d | ⟨d, d2⟩ <;> rcases lexLe_iff.mp h2 with e | ⟨e, e2⟩
  · exact lexLe_iff.mpr (Or.inl (lt_trans d e))
  · exact lexLe_iff.mpr (Or.inl (lt_of_lt_of_eq d e))
  · exact lexLe_iff.mpr (Or.inl (lt_of_eq_of_lt d e))
  · exact lexLe_iff.mpr (Or.inr ⟨d.trans e, addrLe_trans d2 e2⟩)

theorem lexLe_fst {a b : ℚ × Addr} (h : lexLe a b = true) : a.1 ≤ b.1 := by
  rcases lexLe_iff.mp h with h | ⟨h, _⟩
  · exact le_of_lt h
  · exact le_of_eq h

theorem sinsert_perm (le : α → α → Bool) (a : α) (l : List α) :
    (sinsert le a l).Perm (a :: l) := by
  induction l with
  | nil => simp [sinsert]
  | cons b l ih =>
    unfold sinsert
    by_cases h : le a b
    · simp [h]
    · simp only [h, if_neg, Bool.false_eq_true, ite_false]
      exact (ih.cons b).trans (List.Perm.swap a b l)

theorem ssort_perm (le : α → α → Bool) (l : List α) : (ssort le l).Perm l := by
  induction l with
  | nil => simp [ssort]
  | cons a l ih => exact (sinsert_perm le a (ssort le l)).trans (ih.cons a)

theorem sinsert_pairwise (le : α → α → Bool)
    (htot : ∀ x y, le x y = true ∨ le y x = true)
    (htrans : ∀ x y z, le x y = true → le y z = true → le x z = true)
    (a : α) (l : List α) (h : l.Pairwise (fun x y => le x y = true)) :
    (sinsert le a l).Pairwise (fun x y => le x y = true) := by
  induction l with
  | nil => simp [sinsert]
  | cons b l ih =>
    rcases List.pairwise_cons.mp h with ⟨hb, hl⟩
    unfold sinsert
    by_cases hab : le a b
    · simp only [hab, ite_true]
      exact List.pairwise_cons.mpr
        ⟨fun x hx => by
          rcases List.mem_cons.mp hx with rfl | hx
          · exact hab
          · exact htrans a b x hab (hb x hx), h⟩
    · simp only [hab, Bool.false_eq_true, ite_false]
      have hba : le b a = true := (htot a b).resolve_left hab
      exact List.pairwise_cons.mpr
        ⟨fun x hx => by
          rcases List.mem_cons.mp ((sinsert_perm le a l).mem_iff.mp hx) with rfl | hx
          · exact hba
          · exact hb x hx, ih hl⟩

theorem ssort_pairwise (le : α → α → Bool)
    (htot : ∀ x y, le x y = true ∨ le y x = true)
    (htrans : ∀ x y z, le x y = true → le y z = true → le x z = true)
    (l : List α) : (ssort le l).Pairwise (fun x y => le x y = true) := by
  induction l with
  | nil => simp [ssort]
  | cons a l ih => exact sinsert_pairwise le htot htrans a (ssort le l) ih

/- ## AddressGroup (connection_mgr.py) -/

/-- An address group: tiers of weighted addresses,
`tiers : [ [(weight, (ip, port)), ...] ... ]`. -/
structure AddressGroup where
  tiers : List (List (ℚ × Addr))

/-- Constructor `AddressGroup.__init__`: `if not any(tiers): raise ValueError`.
An empty Python list is falsy, so construction fails exactly when every tier is
empty. -/
def AddressGroup.init (tiers : List (List (ℚ × Addr))) : Except Unit AddressGroup :=
  if tiers.all List.isEmpty then .error () else .ok ⟨tiers⟩

/-- Keyed tier for `connect_ordering`: `[(random.random() * e[0], e[1]) for e in tier]`.
`rand i j` is the fresh uniform draw consumed for element `j` of tier `i`. -/
def tierKeys (rand : Nat → Nat → ℚ) (i : Nat) (tier : List (ℚ × Addr)) : List (ℚ × Addr) :=
  tier.enum.map (fun je => (rand i je.1 * je.2.1, je.2.2))

/-- Body of the `for tier in self.tiers` loop of `connect_ordering`: sort each
keyed tier ascending and append the addresses, tier after tier. -/
def connectOrderingAux (rand : Nat → Nat → ℚ) : Nat → List (List (ℚ × Addr)) → List Addr
  | _, [] => []
  | i, tier :: rest =>
    ((ssort lexLe (tierKeys rand i tier)).map Prod.snd) ++ connectOrderingAux rand (i + 1) rest

/-- `AddressGroup.connect_ordering`, with the stream of `random.random()` draws
made explicit as `rand`. -/
def AddressGroup.connect_ordering (rand : Nat → Nat → ℚ) (g : AddressGroup) : List Addr :=
  connectOrderingAux rand 0 g.tiers

/- ## Module-level constants (connection_mgr.py) -/

/-- Transient markdown window, seconds. -/
def TRANSIENT_MARKDOWN_DURATION : ℚ := 10

/-- Python runtime values involved in the `MAX_CONNECTIONS` initializer. -/
inductive PyVal
  | pyFloat (q : ℚ)
  | pyTuple2 (a b : Int)

/-- Python exceptions relevant to the `MAX_CONNECTIONS` initializer. -/
inductive PyErr
  | typeError
  | importError

/-- Python multiplication: defined on two floats; a float times a tuple raises
TypeError (sequence repetition requires an integer operand, not a float). -/
def pyMul : PyVal → PyVal → Except PyErr PyVal
  | .pyFloat a, .pyFloat b => .ok (.pyFloat (a * b))
  | _, _ => .error .typeError

/-- Python `int()` applied to a runtime value: truncates a float toward zero. -/
def pyIntOfVal : PyVal → Except PyErr Int
  | .pyFloat q => .ok (q.num.tdiv (q.den : Int))
  | _ => .error .typeError

/-- Module-level initializer
`MAX_CONNECTIONS = int(0.8 * resource.getrlimit(resource.RLIMIT_NOFILE))`
inside `try: ... except: MAX_CONNECTIONS = 800`.  The argument is the outcome of
`resource.getrlimit(resource.RLIMIT_NOFILE)`, which on success returns the
`(soft, hard)` PAIR of limits. -/
def MAX_CONNECTIONS (getrlimit : Except PyErr PyVal) : Int :=
  match (do
      let lim ← getrlimit
      let prod ← pyMul (.pyFloat (4 / 5)) lim
      pyIntOfVal prod : Except PyErr Int) with
  | .ok n => n
  | .error _ => 800

/- ## ConnectionManager (connection_mgr.py) -/

/-- Error taxonomy: every raised error is a `socket.error` subclass.  Underlying
dial errors from `gevent.socket.create_connection` are `transportError`s. -/
inductive SockErr
  | markedDownError
  | outOfSockets
  | nameNotFound
  | multiConnectFailure (errors : List (Addr × SockErr))
  | transportError (code : Nat)

/-- `ServerModel`: per-endpoint observational state. -/
structure ServerModel where
  last_error : ℚ
  active_connections : List (Sock × ℚ)
  address : Addr

/-- `ServerModel.__init__`. -/
def ServerModel.init (address : Addr) : ServerModel :=
  { last_error := 0, active_connections := [], address := address }

/-- `ServerModel.sock_in_use`: `self.active_connections[sock] = time.time()`. -/
def ServerModel.sock_in_use (sm : ServerModel) (sock : Sock) (now : ℚ) : ServerModel :=
  { sm with active_connections := dictSet sm.active_connections sock now }

/-- Endpoint configuration fetched from opscfg. -/
structure EndpointConfig where
  connect_timeout_ms : Int
  response_timeout_ms : Int
  max_connect_retry : Nat
  transient_markdown_enabled : Bool

/-- A socket as handed back to the caller: the underlying socket identity plus
the per-operation timeout installed by `sock.settimeout(...)` (seconds, the
result of Python 2 integer division of the millisecond field). -/
structure ReturnedSock where
  sock : Sock
  timeout : Int

/-- Observable side effects of an acquire: number of dial attempts, the connect
timeout handed to the dialer (if any dial happened), whether the transient
markdown telemetry (interval ticks and the CAL TMARKDOWN event) was emitted,
whether the out-of-sockets counters ticked, and the sockets handed to the async
kill path. -/
structure ConnectOut where
  dials : Nat
  connect_timeout_used : Option Int
  markdown_telemetry : Bool
  out_of_sockets_tick : Bool
  killed : List Sock

/-- No side effects yet. -/
def ConnectOut.empty : ConnectOut :=
  { dials := 0, connect_timeout_used := none, markdown_telemetry := false,
    out_of_sockets_tick := false, killed := [] }

/-- Sequencing of side effects. -/
def ConnectOut.merge (a b : ConnectOut) : ConnectOut :=
  { dials := a.dials + b.dials
    connect_timeout_used := a.connect_timeout_used.orElse (fun _ => b.connect_timeout_used)
    markdown_telemetry := a.markdown_telemetry || b.markdown_telemetry
    out_of_sockets_tick := a.out_of_sockets_tick || b.out_of_sockets_tick
    killed := a.killed ++ b.killed }

/-- The ambient world of a `ConnectionManager` call: the current wall-clock
time, the per-socket operating-system facts, the dialer (address, connect
timeout in seconds, attempt number ↦ fresh socket or transport error), the
outcome of `resource.getrlimit`, the stream of `random.random()` draws, the
ambient protected identity, and the TLS wrapper. -/
structure ConnectEnv where
  now : ℚ
  sockEnv : Sock → SockInfo
  dial : Addr → Int → Nat → Except SockErr Sock
  rlimit : Except PyErr PyVal
  rand : Nat → Nat → ℚ
  ctxProtected : Nat
  wrap : Sock → Sock

/-- Mutable state of a `ConnectionManager`: one sockpool per protected identity
(the falsy `NULL_PROTECTED` sentinel is identity `0`), the server-model
directory, and the `_protected` tag of every `MonitoredSocket` created. -/
structure ConnectionManager where
  sockpools : List (Nat × SockPool)
  server_models : List (Addr × ServerModel)
  sock_protected : List (Sock × Nat)

/-- `ConnectionManager.__init__` with no explicit address groups or config. -/
def ConnectionManager.init : ConnectionManager :=
  { sockpools := [], server_models := [], sock_protected := [] }

/-- The `while True` dial loop of `_connect_to_address`: attempt to dial; on a
transport error raise it once the failure counter has reached
`max_connect_retry`, otherwise increment the counter and retry immediately.
Returns the outcome and the number of dial attempts made; called with
`failed = 0` and `fuel = max_connect_retry + 1`, which makes the fuel-exhausted
first branch unreachable. -/
def dialLoop (dial : Nat → Except SockErr Sock) (max_connect_retry : Nat) :
    Nat → Nat → Except SockErr Sock × Nat
  | _, 0 => (.error (.transportError 0), 0)
  | failed, fuel + 1 =>
    match dial failed with
    | .ok s => (.ok s, 1)
    | .error e =>
      if max_connect_retry ≤ failed then (.error e, 1)
      else
        let r := dialLoop dial max_connect_retry (failed + 1) fuel
        (r.1, r.2 + 1)

/-- `ConnectionManager._connect_to_address`: materialize the server model, pick
the sockpool for the protected identity (creating it with the default
constructor arguments), try the pool; on a miss consult the transient-markdown
gate, then dial with bounded retry, optionally TLS-wrap, register the new
socket in the active set and tag it; finally install the response timeout. -/
def ConnectionManager._connect_to_address (env : ConnectEnv) (cfg : EndpointConfig)
    (ssl : Bool) (cm : ConnectionManager) (addr : Addr) :
    ConnectionManager × ConnectOut × Except SockErr ReturnedSock :=
  let server_models₀ :=
    if (cm.server_models.lookup addr).isSome then cm.server_models
    else dictSet cm.server_models addr (ServerModel.init addr)
  let sm := (server_models₀.lookup addr).getD (ServerModel.init addr)
  let prot := if ssl then env.ctxProtected else 0
  let sockpools₀ :=
    if (cm.sockpools.lookup prot).isSome then cm.sockpools
    else dictSet cm.sockpools prot (SockPool.init (1/4) 800)
  let pool := (sockpools₀.lookup prot).getD (SockPool.init (1/4) 800)
  let acq := SockPool.acquire env.sockEnv env.now pool addr
  let sockpools₁ := dictSet sockpools₀ prot acq.1
  let cm₁ : ConnectionManager := ⟨sockpools₁, server_models₀, cm.sock_protected⟩
  match acq.2.1 with
  | some s =>
    (cm₁, { ConnectOut.empty with killed := acq.2.2 },
     .ok ⟨s, py2div cfg.response_timeout_ms 1000⟩)
  | none =>
    if cfg.transient_markdown_enabled ∧ sm.last_error ≠ 0 ∧
        env.now - sm.last_error < TRANSIENT_MARKDOWN_DURATION then
      (cm₁, { ConnectOut.empty with killed := acq.2.2 }, .error .markedDownError)
    else
      let ct := py2div cfg.connect_timeout_ms 1000
      let dl := dialLoop (env.dial addr ct) cfg.max_connect_retry 0 (cfg.max_connect_retry + 1)
      match dl.1 with
      | .error e =>
        let sm₁ := { sm with last_error := env.now }
        (⟨sockpools₁, dictSet server_models₀ addr sm₁, cm.sock_protected⟩,
         { ConnectOut.empty with
             dials := dl.2
             connect_timeout_used := some ct
             markdown_telemetry := cfg.transient_markdown_enabled
             killed := acq.2.2 },
         .error e)
      | .ok s₀ =>
        let s := if ssl then env.wrap s₀ else s₀
        let sm₁ := ServerModel.sock_in_use sm s env.now
        (⟨sockpools₁, dictSet server_models₀ addr sm₁, dictSet cm.sock_protected s prot⟩,
         { ConnectOut.empty with
             dials := dl.2
             connect_timeout_used := some ct
             killed := acq.2.2 },
         .ok ⟨s, py2div cfg.response_timeout_ms 1000⟩)

/-- The `for address in address_list` loop of `get_connection`: try each
candidate; a `socket.error` is propagated directly when the candidate list is a
singleton, otherwise it is collected into the `(address, error)` list and the
next candidate is tried; when all candidates fail raise `MultiConnectFailure`
with the collected pairs. -/
def ConnectionManager.attemptLoop (env : ConnectEnv) (cfg : EndpointConfig) (ssl : Bool)
    (single : Bool) :
    ConnectionManager → ConnectOut → List Addr → List (Addr × SockErr) →
    ConnectionManager × ConnectOut × Except SockErr ReturnedSock
  | cm, out, [], errors => (cm, out, .error (.multiConnectFailure errors))
  | cm, out, address :: rest, errors =>
    let r := ConnectionManager._connect_to_address env cfg ssl cm address
    let out₁ := ConnectOut.merge out r.2.1
    match r.2.2 with
    | .ok s => (r.1, out₁, .ok s)
    | .error err =>
      if single then (r.1, out₁, .error err)
      else ConnectionManager.attemptLoop env cfg ssl single r.1 out₁ rest
        (errors ++ [(address, err)])

/-- `ConnectionManager.get_connection`: resolve the name to a candidate list
(iterating an `AddressGroup` invokes `connect_ordering`), fetch the endpoint
config, enforce the global `MAX_CONNECTIONS` admission bound over the candidate
server models (materializing them through the directory), then run the attempt
loop. -/
def ConnectionManager.get_connection (env : ConnectEnv)
    (address_groups : List (String × AddressGroup))
    (opscfg_revmap : Addr → Option String)
    (get_endpoint_config : Option String → EndpointConfig)
    (cm : ConnectionManager) (name_or_addr : String ⊕ Addr) (ssl : Bool) :
    ConnectionManager × ConnectOut × Except SockErr ReturnedSock :=
  let resolved : Except SockErr (List Addr × Option String) :=
    match name_or_addr with
    | .inl name =>
      match address_groups.lookup name with
      | none => .error .nameNotFound
      | some g => .ok (g.connect_ordering env.rand, some name)
    | .inr addr => .ok ([addr], opscfg_revmap addr)
  match resolved with
  | .error e => (cm, ConnectOut.empty, .error e)
  | .ok la =>
    let address_list := la.1
    let cfg := get_endpoint_config la.2
    let server_models₁ := address_list.foldl
      (fun d a => if (d.lookup a).isSome then d else dictSet d a (ServerModel.init a))
      cm.server_models
    let num_in_use := (address_list.map
      (fun a => ((server_models₁.lookup a).getD (ServerModel.init a)).active_connections.length)).sum
    let cm₁ : ConnectionManager := ⟨cm.sockpools, server_models₁, cm.sock_protected⟩
    if MAX_CONNECTIONS env.rlimit ≤ (num_in_use : Int) then
      (cm₁, { ConnectOut.empty with out_of_sockets_tick := true }, .error .outOfSockets)
    else
      ConnectionManager.attemptLoop env cfg ssl (address_list.length == 1)
        cm₁ ConnectOut.empty address_list []

/-- `ConnectionManager.release_connection`: look up the pool by the socket
`_protected` tag (a missing pool is a `KeyError` in the source) and release the
socket into it. -/
def ConnectionManager.release_connection (env : ConnectEnv) (cm : ConnectionManager)
    (sock : Sock) : Except Unit (ConnectionManager × List Sock) :=
  let prot := (cm.sock_protected.lookup sock).getD 0
  match cm.sockpools.lookup prot with
  | none => .error ()
  | some pool =>
    let r := SockPool.release env.sockEnv env.now pool sock
    .ok (⟨dictSet cm.sockpools prot r.1, cm.server_models, cm.sock_protected⟩, r.2)

/- ## Helper lemmas on the dict model and on pyMax -/

theorem dictSet_lookup_self [BEq κ] [LawfulBEq κ] (d : List (κ × β)) (k : κ) (v : β) :
    (dictSet d k v).lookup k = some v := by
  induction d with
  | nil => simp [dictSet, List.lookup]
  | cons e rest ih =>
    rcases e with ⟨k', v'⟩
    by_cases h : k == k'
    · simp [dictSet, h, List.lookup]
    · simp [dictSet, h, List.lookup, ih]

theorem pyMax_ge (l : List (ℚ × Sock)) (b : ℚ × Sock) :
    b.1 ≤ (pyMax l b).1 ∧ ∀ x ∈ l, x.1 ≤ (pyMax l b).1 := by
  induction l generalizing b with
  | nil => exact ⟨le_refl _, by simp⟩
  | cons x rest ih =>
    unfold pyMax
    by_cases h : b.1 < x.1 ∨ (b.1 = x.1 ∧ b.2 < x.2)
    · rcases ih x with ⟨h1, h2⟩
      simp only [h, ite_true]
      refine ⟨?_, ?_⟩
      · rcases h with h | ⟨h, _⟩
        · exact le_of_lt (lt_of_lt_of_le h h1)
        · exact le_of_eq_of_le h h1
      · intro z hz
        rcases List.mem_cons.mp hz with rfl | hz
        · exact h1
        · exact h2 z hz
    · rcases ih b with ⟨h1, h2⟩
      simp only [h, ite_false]
      refine ⟨h1, ?_⟩
      intro z hz
      rcases List.mem_cons.mp hz with rfl | hz
      · have hx : z.1 ≤ b.1 := by
          by_contra hlt
          exact h (Or.inl (lt_of_not_le hlt))
        exact le_trans hx h1
      · exact h2 z hz

/- ## Helper lemmas on cull and acquire -/

theorem cullStep1_live_nil (env : Sock → SockInfo) (hinv : ∀ s, (env s).valid = false)
    (now timeout : ℚ) (idle : List (Sock × ℚ)) (socks : List Sock) :
    (cullStep1 env now timeout idle socks).1 = [] := by
  induction socks with
  | nil => rfl
  | cons s rest ih =>
    unfold cullStep1
    by_cases h : now - ((idle.lookup s).getD 0) > timeout
    · simpa [h] using ih
    · simp [h, hinv s, ih]

theorem lookup_all_nil (d : List (Addr × List Sock)) (addr : Addr)
    (h : ∀ e ∈ d, e.2 = []) : (d.lookup addr).getD [] = [] := by
  induction d with
  | nil => simp [List.lookup]
  | cons e rest ih =>
    rcases e with ⟨k, v⟩
    by_cases hk : addr == k
    · simp only [List.lookup, hk]
      exact h (k, v) (by simp)
    · simp only [List.lookup, hk]
      exact ih (fun x hx => h x (List.mem_cons_of_mem _ hx))

theorem acquire_miss_of_invalid (env : Sock → SockInfo)
    (hinv : ∀ s, (env s).valid = false) (now : ℚ) (p : SockPool) (addr : Addr) :
    (SockPool.acquire env now p addr).2.1 = none := by
  unfold SockPool.acquire
  have hfree : (((SockPool.cull env now p).1.free_socks_by_addr.lookup addr).getD []) = [] := by
    apply lookup_all_nil
    intro e he
    unfold SockPool.cull at he
    simp only [List.map_map, List.mem_map] at he
    rcases he with ⟨av, _, rfl⟩
    simp [Function.comp, cullStep1_live_nil env hinv]
  simp [hfree]

/- ## Helper lemmas on the dial loop and the attempt loop -/

theorem dialLoop_all_fail (dial : Nat → Except SockErr Sock) (r : Nat) (e : Nat → SockErr)
    (hd : ∀ i, dial i = .error (e i)) :
    ∀ fuel failed, 1 ≤ fuel → failed + fuel = r + 1 →
      dialLoop dial r failed fuel = (.error (e r), fuel) := by
  intro fuel
  induction fuel with
  | zero => intro failed h; omega
  | succ fuel ih =>
    intro failed _ hsum
    unfold dialLoop
    rw [hd failed]
    by_cases hle : r ≤ failed
    · have hf : failed = r := by omega
      have hfuel : fuel = 0 := by omega
      subst hf hfuel
      simp
    · have h1 : 1 ≤ fuel := by omega
      have h2 : (failed + 1) + fuel = r + 1 := by omega
      simp only [hle, ite_false, ih (failed + 1) h1 h2]

theorem attemptLoop_single (env : ConnectEnv) (cfg : EndpointConfig) (ssl : Bool)
    (cm : ConnectionManager) (out : ConnectOut) (a : Addr) (rest : List Addr)
    (errors : List (Addr × SockErr)) (e : SockErr)
    (h : (ConnectionManager._connect_to_address env cfg ssl cm a).2.2 = .error e) :
    (ConnectionManager.attemptLoop env cfg ssl true cm out (a :: rest) errors).2.2
      = .error e := by
  unfold ConnectionManager.attemptLoop
  simp [h]

theorem attemptLoop_all_fail (env : ConnectEnv) (cfg : EndpointConfig) (ssl : Bool)
    (errOf : Addr → SockErr) (l : List Addr) :
    ∀ cm out errors,
      (∀ cm' a, a ∈ l →
        (ConnectionManager._connect_to_address env cfg ssl cm' a).2.2 = .error (errOf a)) →
      (ConnectionManager.attemptLoop env cfg ssl false cm out l errors).2.2
        = .error (.multiConnectFailure (errors ++ l.map (fun a => (a, errOf a)))) := by
  induction l with
  | nil => intro cm out errors _; simp [ConnectionManager.attemptLoop]
  | cons a rest ih =>
    intro cm out errors h
    unfold ConnectionManager.attemptLoop
    simp only [h cm a (List.mem_cons_self a rest), Bool.false_eq_true, ite_false]
    rw [ih _ _ _ (fun cm' x hx => h cm' x (List.mem_cons_of_mem _ hx))]
    simp

/- ## Helper lemmas on tier ordering -/

theorem tierKeys_map_snd (rand : Nat → Nat → ℚ) (i : Nat) (tier : List (ℚ × Addr)) :
    (tierKeys rand i tier).map Prod.snd = tier.map Prod.snd := by
  unfold tierKeys
  rw [List.map_map]
  have h1 : (Prod.snd ∘ fun je : Nat × (ℚ × Addr) => (rand i je.1 * je.2.1, je.2.2))
      = (Prod.snd ∘ (Prod.snd : Nat × (ℚ × Addr) → ℚ × Addr)) := rfl
  rw [h1, ← List.map_map, List.enum_map_snd]

theorem tier_sorted_perm (rand : Nat → Nat → ℚ) (i : Nat) (tier : List (ℚ × Addr)) :
    ((ssort lexLe (tierKeys rand i tier)).map Prod.snd).Perm (tier.map Prod.snd) := by
  have h := (ssort_perm lexLe (tierKeys rand i tier)).map Prod.snd
  rwa [tierKeys_map_snd] at h

theorem ssort_pairwise_fst (l : List (ℚ × Addr)) :
    (ssort lexLe l).Pairwise (fun a b => a.1 ≤ b.1) :=
  (ssort_pairwise lexLe lexLe_total (fun _ _ _ => lexLe_trans) l).imp (fun h => lexLe_fst h)

theorem connectOrderingAux_perm (rand : Nat → Nat → ℚ) (tiers : List (List (ℚ × Addr))) :
    ∀ i, (connectOrderingAux rand i tiers).Perm
      ((tiers.map (fun t => t.map Prod.snd)).flatten) := by
  induction tiers with
  | nil => intro i; simp [connectOrderingAux]
  | cons tier rest ih =>
    intro i
    simpa [connectOrderingAux] using (tier_sorted_perm rand i tier).append (ih (i + 1))

theorem connectOrderingAux_parts (rand : Nat → Nat → ℚ) (tiers : List (List (ℚ × Addr))) :
    ∀ i, ∃ parts : List (List Addr),
      parts.length = tiers.length ∧
      connectOrderingAux rand i tiers = parts.flatten ∧
      ∀ j (hj : j < parts.length) (hj' : j < tiers.length),
        parts.get ⟨j, hj⟩ =
          (ssort lexLe (tierKeys rand (i + j) (tiers.get ⟨j, hj'⟩))).map Prod.snd := by
  induction tiers with
  | nil => exact fun i => ⟨[], rfl, rfl, fun j hj hj' => absurd hj (by simp)⟩
  | cons tier rest ih =>
    intro i
    rcases ih (i + 1) with ⟨parts, hlen, heq, hget⟩
    refine ⟨((ssort lexLe (tierKeys rand i tier)).map Prod.snd) :: parts, by simp [hlen], ?_, ?_⟩
    · simp [connectOrderingAux, heq]
    · intro j hj hj'
      match j with
      | 0 => simp
      | j + 1 =>
        have hj₁ : j < parts.length := by simpa using hj
        have hj₂ : j < rest.length := by simpa using hj'
        have := hget j hj₁ hj₂
        simpa [Nat.add_assoc, Nat.add_comm 1 j] using this

/- ## Helper lemmas on _connect_to_address -/

theorem materialize_lookup (cm : ConnectionManager) (addr : Addr) :
    ((if (cm.server_models.lookup addr).isSome then cm.server_models
      else dictSet cm.server_models addr (ServerModel.init addr)).lookup addr)
      = some ((cm.server_models.lookup addr).getD (ServerModel.init addr)) := by
  cases h : cm.server_models.lookup addr with
  | none => simp [h, dictSet_lookup_self]
  | some sm => simp [h]

theorem pool_lookup_materialize (cm : ConnectionManager) (prot : Nat) :
    ((if (cm.sockpools.lookup prot).isSome then cm.sockpools
      else dictSet cm.sockpools prot (SockPool.init (1/4) 800)).lookup prot)
      = some ((cm.sockpools.lookup prot).getD (SockPool.init (1/4) 800)) := by
  cases h : cm.sockpools.lookup prot with
  | none => simp [h, dictSet_lookup_self]
  | some pool => simp [h]

theorem connect_dial_fail_aux (env : ConnectEnv) (cfg : EndpointConfig)
    (ssl : Bool) (cm : ConnectionManager) (addr : Addr) (e : Nat → SockErr)
    (hmiss : (SockPool.acquire env.sockEnv env.now
        ((cm.sockpools.lookup (if ssl then env.ctxProtected else 0)).getD
          (SockPool.init (1/4) 800)) addr).2.1 = none)
    (hgate : ¬(cfg.transient_markdown_enabled ∧
        ((cm.server_models.lookup addr).getD (ServerModel.init addr)).last_error ≠ 0 ∧
        env.now - ((cm.server_models.lookup addr).getD (ServerModel.init addr)).last_error
          < TRANSIENT_MARKDOWN_DURATION))
    (hdial : ∀ i, env.dial addr (py2div cfg.connect_timeout_ms 1000) i = .error (e i)) :
    (ConnectionManager._connect_to_address env cfg ssl cm addr).2.2
        = .error (e cfg.max_connect_retry) ∧
    (ConnectionManager._connect_to_address env cfg ssl cm addr).2.1.dials
        = cfg.max_connect_retry + 1 ∧
    (ConnectionManager._connect_to_address env cfg ssl cm addr).2.1.markdown_telemetry
        = cfg.transient_markdown_enabled ∧
    (ConnectionManager._connect_to_address env cfg ssl cm addr).1.server_models.lookup addr
        = some { (cm.server_models.lookup addr).getD (ServerModel.init addr) with
                   last_error := env.now } := by
  have hdl := dialLoop_all_fail (env.dial addr (py2div cfg.connect_timeout_ms 1000))
    cfg.max_connect_retry e hdial (cfg.max_connect_retry + 1) 0 (by omega) (by omega)
  unfold ConnectionManager._connect_to_address
  simp only [pool_lookup_materialize, materialize_lookup, Option.getD_some, hmiss, hdl,
    if_neg hgate]
  simp [dictSet_lookup_self]

theorem connect_fails_generic (env : ConnectEnv) (cfg : EndpointConfig) (ssl : Bool)
    (addr : Addr) (e : Nat → SockErr)
    (hinv : ∀ s, (env.sockEnv s).valid = false)
    (hmd : cfg.transient_markdown_enabled = false)
    (hdial : ∀ i, env.dial addr (py2div cfg.connect_timeout_ms 1000) i = .error (e i)) :
    ∀ cm, (ConnectionManager._connect_to_address env cfg ssl cm addr).2.2
      = .error (e cfg.max_connect_retry) := by
  intro cm
  exact (connect_dial_fail_aux env cfg ssl cm addr e
    (acquire_miss_of_invalid env.sockEnv hinv env.now _ addr)
    (by simp [hmd]) hdial).1

/- ## Claim theorems -/

/-- Claim C4: for an endpoint with transient markdown enabled, when a
`get_connection` attempt misses the pool for the address and the per-endpoint
`last_error` is nonzero and less than `TRANSIENT_MARKDOWN_DURATION` (10 s) old,
`_connect_to_address` raises `MarkedDownError` immediately: no dial attempt is
made and no connect timeout is ever handed to the dialer. -/
theorem connect_markdown_gate (env : ConnectEnv) (cfg : EndpointConfig)
    (ssl : Bool) (cm : ConnectionManager) (addr : Addr)
    (hmiss : (SockPool.acquire env.sockEnv env.now
        ((cm.sockpools.lookup (if ssl then env.ctxProtected else 0)).getD
          (SockPool.init (1/4) 800)) addr).2.1 = none)
    (hmd : cfg.transient_markdown_enabled = true)
    (hle : ((cm.server_models.lookup addr).getD (ServerModel.init addr)).last_error ≠ 0)
    (hwin : env.now - ((cm.server_models.lookup addr).getD (ServerModel.init addr)).last_error
        < TRANSIENT_MARKDOWN_DURATION) :
    (ConnectionManager._connect_to_address env cfg ssl cm addr).2.2
        = .error .markedDownError ∧
    (ConnectionManager._connect_to_address env cfg ssl cm addr).2.1.dials = 0 ∧
    (ConnectionManager._connect_to_address env cfg ssl cm addr).2.1.connect_timeout_used
        = none := by
  unfold ConnectionManager._connect_to_address
  simp only [pool_lookup_materialize, materialize_lookup, Option.getD_some, hmiss]
  rw [if_pos ⟨hmd, hle, hwin⟩]
  simp [ConnectOut.empty]

/-- Concrete scenario for the markdown gate: endpoint marked down 5 s ago. -/
def c4Env : ConnectEnv :=
  { now := 100
    sockEnv := fun _ => ⟨("a", 1), false, false⟩
    dial := fun _ _ _ => .error (.transportError 0)
    rlimit := .error .importError
    rand := fun _ _ => 1/2
    ctxProtected := 0
    wrap := id }

/-- Manager state whose server model for ("a", 1) recorded an error at t = 95. -/
def c4Cm : ConnectionManager :=
  { sockpools := []
    server_models := [(("a", 1),
      { last_error := 95, active_connections := [], address := ("a", 1) })]
    sock_protected := [] }

/-- Endpoint config with transient markdown enabled. -/
def c4Cfg : EndpointConfig :=
  { connect_timeout_ms := 5000, response_timeout_ms := 5000, max_connect_retry := 0,
    transient_markdown_enabled := true }

theorem connect_markdown_gate_witness :
    c4Cfg.transient_markdown_enabled = true ∧
    (ConnectionManager._connect_to_address c4Env c4Cfg false c4Cm ("a", 1)).2.2
        = .error .markedDownError ∧
    (ConnectionManager._connect_to_address c4Env c4Cfg false c4Cm ("a", 1)).2.1.dials = 0 ∧
    (ConnectionManager._connect_to_address c4Env c4Cfg false c4Cm ("a", 1)).2.1.connect_timeout_used
        = none := by
  have h := connect_markdown_gate c4Env c4Cfg false c4Cm ("a", 1) (by rfl) rfl
    (by norm_num [c4Cm, List.lookup])
    (by norm_num [c4Cm, c4Env, List.lookup, TRANSIENT_MARKDOWN_DURATION])
  exact ⟨rfl, h⟩

/-- Claim C5: when a `_connect_to_address` call must dial and every dial attempt
fails with a transport error, exactly `max_connect_retry + 1` attempts are made,
`last_error` of the server model is set to the current time, the markdown
telemetry is emitted exactly when transient markdown is enabled, and the last
dial error is propagated.  In particular `max_connect_retry = 0` means a single
attempt. -/
theorem connect_retry_exhaustion (env : ConnectEnv) (cfg : EndpointConfig)
    (ssl : Bool) (cm : ConnectionManager) (addr : Addr) (e : Nat → SockErr)
    (hmiss : (SockPool.acquire env.sockEnv env.now
        ((cm.sockpools.lookup (if ssl then env.ctxProtected else 0)).getD
          (SockPool.init (1/4) 800)) addr).2.1 = none)
    (hgate : ¬(cfg.transient_markdown_enabled ∧
        ((cm.server_models.lookup addr).getD (ServerModel.init addr)).last_error ≠ 0 ∧
        env.now - ((cm.server_models.lookup addr).getD (ServerModel.init addr)).last_error
          < TRANSIENT_MARKDOWN_DURATION))
    (hdial : ∀ i, env.dial addr (py2div cfg.connect_timeout_ms 1000) i = .error (e i)) :
    (ConnectionManager._connect_to_address env cfg ssl cm addr).2.2
        = .error (e cfg.max_connect_retry) ∧
    (ConnectionManager._connect_to_address env cfg ssl cm addr).2.1.dials
        = cfg.max_connect_retry + 1 ∧
    (ConnectionManager._connect_to_address env cfg ssl cm addr).2.1.markdown_telemetry
        = cfg.transient_markdown_enabled ∧
    (ConnectionManager._connect_to_address env cfg ssl cm addr).1.server_models.lookup addr
        = some { (cm.server_models.lookup addr).getD (ServerModel.init addr) with
                   last_error := env.now } :=
  connect_dial_fail_aux env cfg ssl cm addr e hmiss hgate hdial

/-- Concrete scenario for retry exhaustion: every dial fails, retry budget 2. -/
def c5Env : ConnectEnv :=
  { now := 100
    sockEnv := fun _ => ⟨("a", 1), false, false⟩
    dial := fun _ _ i => .error (.transportError i)
    rlimit := .error .importError
    rand := fun _ _ => 1/2
    ctxProtected := 0
    wrap := id }

/-- Endpoint config with transient markdown enabled and two retries. -/
def c5Cfg : EndpointConfig :=
  { connect_timeout_ms := 5000, response_timeout_ms := 5000, max_connect_retry := 2,
    transient_markdown_enabled := true }

theorem connect_retry_exhaustion_witness :
    (ConnectionManager._connect_to_address c5Env c5Cfg false ConnectionManager.init ("a", 1)).2.2
        = .error (.transportError 2) ∧
    (ConnectionManager._connect_to_address c5Env c5Cfg false ConnectionManager.init ("a", 1)).2.1.dials
        = 3 ∧
    (ConnectionManager._connect_to_address c5Env c5Cfg false ConnectionManager.init ("a", 1)).2.1.markdown_telemetry
        = true ∧
    (ConnectionManager._connect_to_address c5Env c5Cfg false ConnectionManager.init ("a", 1)).1.server_models.lookup ("a", 1)
        = some { last_error := 100, active_connections := [], address := ("a", 1) } := by
  have h := connect_retry_exhaustion c5Env c5Cfg false ConnectionManager.init ("a", 1)
    (fun i => .transportError i) (by rfl)
    (by simp [ConnectionManager.init, List.lookup, ServerModel.init])
    (fun i => rfl)
  refine ⟨h.1, h.2.1, h.2.2.1, ?_⟩
  have h4 := h.2.2.2
  simpa [ConnectionManager.init, List.lookup, ServerModel.init, c5Env] using h4

/-- Claim C9: the `max_sockets` constructor parameter of `SockPool` is ignored:
whatever value is passed, the constructed pool carries the literal global cap
800, so two pools constructed with different caps are identical and eviction
behaviour cannot be influenced through the parameter. -/
theorem sockpool_init_ignores_max_sockets (timeout : ℚ) (m₁ m₂ : Nat) :
    SockPool.init timeout m₁ = SockPool.init timeout m₂ ∧
    (SockPool.init timeout m₁).max_sockets = 800 :=
  ⟨rfl, rfl⟩

/-- Claim C8: the `MAX_CONNECTIONS` initializer multiplies the float `0.8` by
the `(soft, hard)` PAIR returned by `resource.getrlimit`, which raises
`TypeError`; the bare `except` then installs the fallback `800`.  Hence the
constant is 800 whether or not the resource limit is available, and on a
process with soft limit 1024 it is NOT `int(0.8 * 1024) = 819` as the
specification describes. -/
theorem max_connections_always_800 :
    (∀ soft hard : Int, MAX_CONNECTIONS (.ok (.pyTuple2 soft hard)) = 800) ∧
    MAX_CONNECTIONS (.error .importError) = 800 ∧
    MAX_CONNECTIONS (.ok (.pyTuple2 1024 4096)) = 800 ∧
    MAX_CONNECTIONS (.ok (.pyTuple2 1024 4096)) ≠ 819 := by
  refine ⟨fun soft hard => rfl, rfl, rfl, ?_⟩
  intro h
  rw [show MAX_CONNECTIONS (.ok (.pyTuple2 1024 4096)) = 800 from rfl] at h
  norm_num at h

theorem max_connections_always_800_witness :
    MAX_CONNECTIONS (.ok (.pyTuple2 1024 4096)) = 800 ∧
    MAX_CONNECTIONS (.error .importError) = 800 :=
  ⟨(max_connections_always_800).1 1024 4096, (max_connections_always_800).2.1⟩

/-- Claim C2 (failing input): `SockPool.acquire` pops a socket from the free
list and deletes its idle-time entry but does not decrement `total_sockets`.
Releasing one socket into a fresh pool and then acquiring it back leaves
`total_sockets = 1` while every free list is empty and the idle map is empty,
violating the invariant `total_sockets = Σ |free_socks_by_addr[a]|`.  The key
sets of the two idle structures do remain equal. -/
theorem sockpool_total_counter_stale_after_acquire :
    (SockPool.acquire (fun _ => ⟨("a", 1), false, true⟩) 100
        (SockPool.release (fun _ => ⟨("a", 1), false, true⟩) 100
          (SockPool.init (1/4) 800) 7).1 ("a", 1)).2.1 = some 7 ∧
    (SockPool.acquire (fun _ => ⟨("a", 1), false, true⟩) 100
        (SockPool.release (fun _ => ⟨("a", 1), false, true⟩) 100
          (SockPool.init (1/4) 800) 7).1 ("a", 1)).1.total_sockets = 1 ∧
    ((SockPool.acquire (fun _ => ⟨("a", 1), false, true⟩) 100
        (SockPool.release (fun _ => ⟨("a", 1), false, true⟩) 100
          (SockPool.init (1/4) 800) 7).1 ("a", 1)).1.free_socks_by_addr.map
      (fun av => av.2.length)).sum = 0 ∧
    (SockPool.acquire (fun _ => ⟨("a", 1), false, true⟩) 100
        (SockPool.release (fun _ => ⟨("a", 1), false, true⟩) 100
          (SockPool.init (1/4) 800) 7).1 ("a", 1)).1.sock_idle_times = [] := by
  norm_num [SockPool.acquire, SockPool.release, SockPool.cull, SockPool.init, cullStep1,
    dictSet, dictDel, pyMaxList, pyMax, List.lookup]

/-- Environment for the eviction scenario: every socket valid, quiet, and
connected to peer ("a", 1). -/
def c3Env : Sock → SockInfo := fun _ => ⟨("a", 1), false, true⟩

/-- Pool holding one idle socket for ("a", 1), with a per-address cap override
of 2 for that address. -/
def c3Pool : SockPool :=
  { timeout := 1/4
    free_socks_by_addr := [(("a", 1), [1])]
    sock_idle_times := [(1, 50)]
    total_sockets := 1
    max_socks_by_addr := [(("a", 1), 2)]
    default_max_socks_per_addr := 50
    max_sockets := 800 }

/-- Claim C3 (counterexample): releasing socket 2 at time 100 into `c3Pool`
reaches the per-address cap, evicts the largest-idle-timestamp socket 2 from
both mappings and decrements the counter, but hands NOTHING to the async kill
path — the kill list of the call is empty, so the evicted transport is not
closed, contrary to the claim. -/
theorem sockpool_release_eviction_skips_kill_path :
    (SockPool.release c3Env 100 c3Pool 2).2 = [] ∧
    (SockPool.release c3Env 100 c3Pool 2).1.free_socks_by_addr = [(("a", 1), [1])] ∧
    (SockPool.release c3Env 100 c3Pool 2).1.sock_idle_times = [(1, 50)] ∧
    (SockPool.release c3Env 100 c3Pool 2).1.total_sockets = 1 := by
  norm_num [SockPool.release, c3Env, c3Pool, dictSet, dictDel, pyMaxList, pyMax,
    List.lookup, List.erase, beq_eq_decide]

/-- Claim C3 (amended): when a retained release finds the per-address free list
at or above the per-address cap, the socket with the maximal idle timestamp for
that address is selected, removed from both the free list and the idle-time
mapping, and the counter is decremented back; but the evicted socket is NOT
closed through the asynchronous kill path — the call kills nothing on this
branch, the socket is merely dropped from the structures. -/
theorem sockpool_release_per_addr_eviction (env : Sock → SockInfo) (now : ℚ)
    (p : SockPool) (sock : Sock)
    (hv : (env sock).valid = true) (hr : (env sock).readable = false)
    (hcap : (p.max_socks_by_addr.lookup (env sock).peer).getD p.default_max_socks_per_addr
        ≤ (((p.free_socks_by_addr.lookup (env sock).peer).getD []) ++ [sock]).length) :
    ∃ c : ℚ × Sock,
      pyMaxList ((((p.free_socks_by_addr.lookup (env sock).peer).getD []) ++ [sock]).map
          (fun a => (((dictSet p.sock_idle_times sock now).lookup a).getD 0, a))) = some c ∧
      (∀ x ∈ (((p.free_socks_by_addr.lookup (env sock).peer).getD []) ++ [sock]).map
          (fun a => (((dictSet p.sock_idle_times sock now).lookup a).getD 0, a)),
        x.1 ≤ c.1) ∧
      SockPool.release env now p sock =
        ({ p with
            total_sockets := p.total_sockets + 1 - 1
            free_socks_by_addr :=
              dictSet (dictSet p.free_socks_by_addr (env sock).peer
                  (((p.free_socks_by_addr.lookup (env sock).peer).getD []) ++ [sock]))
                (env c.2).peer
                ((((dictSet p.free_socks_by_addr (env sock).peer
                    (((p.free_socks_by_addr.lookup (env sock).peer).getD []) ++ [sock])).lookup
                  (env c.2).peer).getD []).erase c.2)
            sock_idle_times := dictDel (dictSet p.sock_idle_times sock now) c.2 }, []) := by
  have hne : (((p.free_socks_by_addr.lookup (env sock).peer).getD []) ++ [sock]).map
      (fun a => (((dictSet p.sock_idle_times sock now).lookup a).getD 0, a)) ≠ [] := by
    simp
  obtain ⟨h0, t0, ht⟩ := List.exists_cons_of_ne_nil hne
  refine ⟨pyMax t0 h0, ?_, ?_, ?_⟩
  · rw [ht]; rfl
  · intro x hx
    rw [ht] at hx
    rcases List.mem_cons.mp hx with rfl | hx
    · exact (pyMax_ge t0 x).1
    · exact (pyMax_ge t0 h0).2 x hx
  · unfold SockPool.release
    simp only [hv, hr, Bool.not_true, Bool.false_eq_true, ite_false, if_false]
    rw [if_pos hcap, ht]
    rfl

theorem sockpool_release_per_addr_eviction_witness :
    (c3Env 2).valid = true ∧ (c3Env 2).readable = false ∧
    (c3Pool.max_socks_by_addr.lookup (c3Env 2).peer).getD c3Pool.default_max_socks_per_addr
        ≤ (((c3Pool.free_socks_by_addr.lookup (c3Env 2).peer).getD []) ++ [2]).length ∧
    SockPool.release c3Env 100 c3Pool 2 =
      ({ c3Pool with
          total_sockets := 1
          free_socks_by_addr := [(("a", 1), [1])]
          sock_idle_times := [(1, 50)] }, []) := by
  refine ⟨rfl, rfl, by decide, ?_⟩
  obtain ⟨c, h1, _, h3⟩ :=
    sockpool_release_per_addr_eviction c3Env 100 c3Pool 2 rfl rfl (by decide)
  norm_num [pyMaxList, pyMax, dictSet, List.lookup, c3Pool, c3Env, beq_eq_decide] at h1
  rw [h3, ← h1]
  norm_num [c3Pool, c3Env, dictSet, dictDel, List.lookup, List.erase, beq_eq_decide]

/-- Claim C6: construction of an `AddressGroup` fails exactly when every tier is
empty; `connect_ordering` outputs exactly the addresses of the group (a
permutation of them), as the concatenation over tiers, in declared tier order,
of a permutation of each tier whose `uniform * weight` sort keys are emitted in
ascending order. -/
theorem address_group_ordering (tiers : List (List (ℚ × Addr))) (rand : Nat → Nat → ℚ) :
    ((∀ t ∈ tiers, t = []) → AddressGroup.init tiers = .error ()) ∧
    ((∃ t ∈ tiers, t ≠ []) → AddressGroup.init tiers = .ok ⟨tiers⟩) ∧
    (AddressGroup.connect_ordering rand ⟨tiers⟩).Perm
      ((tiers.map (fun t => t.map Prod.snd)).flatten) ∧
    ∃ parts : List (List Addr),
      parts.length = tiers.length ∧
      AddressGroup.connect_ordering rand ⟨tiers⟩ = parts.flatten ∧
      ∀ j (hj : j < parts.length) (hj' : j < tiers.length),
        parts.get ⟨j, hj⟩ =
          (ssort lexLe (tierKeys rand j (tiers.get ⟨j, hj'⟩))).map Prod.snd ∧
        (parts.get ⟨j, hj⟩).Perm ((tiers.get ⟨j, hj'⟩).map Prod.snd) ∧
        (ssort lexLe (tierKeys rand j (tiers.get ⟨j, hj'⟩))).Pairwise
          (fun a b => a.1 ≤ b.1) := by
  refine ⟨?_, ?_, ?_, ?_⟩
  · intro h
    unfold AddressGroup.init
    rw [if_pos]
    exact List.all_eq_true.mpr (fun t ht => by simp [h t ht])
  · rintro ⟨t, ht, hne⟩
    unfold AddressGroup.init
    rw [if_neg]
    intro hall
    exact hne (List.isEmpty_iff.mp (List.all_eq_true.mp hall t ht))
  · exact connectOrderingAux_perm rand tiers 0
  · obtain ⟨parts, hlen, heq, hget⟩ := connectOrderingAux_parts rand tiers 0
    refine ⟨parts, hlen, heq, fun j hj hj' => ?_⟩
    have h1 := hget j hj hj'
    rw [Nat.zero_add] at h1
    refine ⟨h1, ?_, ssort_pairwise_fst _⟩
    rw [h1]
    exact tier_sorted_perm rand j _

/-- Two weighted tiers for the ordering witness. -/
def c6Tiers : List (List (ℚ × Addr)) :=
  [[(1, ("a", 1)), (2, ("b", 2))], [(1, ("c", 3))]]

theorem address_group_ordering_witness :
    AddressGroup.init ([[], []] : List (List (ℚ × Addr))) = .error () ∧
    AddressGroup.init c6Tiers = .ok ⟨c6Tiers⟩ ∧
    (AddressGroup.connect_ordering (fun _ _ => 1/2) ⟨c6Tiers⟩).Perm
      ((c6Tiers.map (fun t => t.map Prod.snd)).flatten) ∧
    (c6Tiers.map (fun t => t.map Prod.snd)).flatten = [("a", 1), ("b", 2), ("c", 3)] := by
  refine ⟨(address_group_ordering [[], []] (fun _ _ => 1/2)).1 (by simp),
          (address_group_ordering c6Tiers (fun _ _ => 1/2)).2.1
            ⟨[(1, ("a", 1)), (2, ("b", 2))], by simp [c6Tiers], by simp⟩,
          (address_group_ordering c6Tiers (fun _ _ => 1/2)).2.2.1,
          by simp [c6Tiers]⟩

/-- Claim C10: every socket handed out by `_connect_to_address` carries the
response timeout `response_timeout_ms / 1000` computed with Python 2 floor
division on integers; the dialer receives `connect_timeout_ms / 1000` computed
the same way; and any millisecond value in `[0, 1000)` yields a timeout of 0
seconds rather than a fraction. -/
theorem connect_timeout_integer_division (env : ConnectEnv) (cfg : EndpointConfig)
    (ssl : Bool) (cm : ConnectionManager) (addr : Addr) :
    (∀ rs, (ConnectionManager._connect_to_address env cfg ssl cm addr).2.2 = .ok rs →
        rs.timeout = py2div cfg.response_timeout_ms 1000) ∧
    ((ConnectionManager._connect_to_address env cfg ssl cm addr).2.1.dials ≠ 0 →
        (ConnectionManager._connect_to_address env cfg ssl cm addr).2.1.connect_timeout_used
          = some (py2div cfg.connect_timeout_ms 1000)) ∧
    (∀ ms : Int, 0 ≤ ms → ms < 1000 → py2div ms 1000 = 0) := by
  have key : ((ConnectionManager._connect_to_address env cfg ssl cm addr).2.2.map
          ReturnedSock.timeout
        = (ConnectionManager._connect_to_address env cfg ssl cm addr).2.2.map
          (fun _ => py2div cfg.response_timeout_ms 1000)) ∧
      ((ConnectionManager._connect_to_address env cfg ssl cm addr).2.1.dials = 0 ∨
        (ConnectionManager._connect_to_address env cfg ssl cm addr).2.1.connect_timeout_used
          = some (py2div cfg.connect_timeout_ms 1000)) := by
    unfold ConnectionManager._connect_to_address
    simp only [pool_lookup_materialize, materialize_lookup, Option.getD_some]
    cases hacq : (SockPool.acquire env.sockEnv env.now
        ((cm.sockpools.lookup (if ssl then env.ctxProtected else 0)).getD
          (SockPool.init (1/4) 800)) addr).2.1 with
    | some s =>
      simp only [hacq]
      exact ⟨rfl, Or.inl rfl⟩
    | none =>
      simp only [hacq]
      by_cases hgate : cfg.transient_markdown_enabled = true ∧
          ¬((cm.server_models.lookup addr).getD (ServerModel.init addr)).last_error = 0 ∧
          env.now - ((cm.server_models.lookup addr).getD (ServerModel.init addr)).last_error
            < TRANSIENT_MARKDOWN_DURATION
      · rw [if_pos hgate]
        exact ⟨rfl, Or.inl rfl⟩
      · rw [if_neg hgate]
        cases hdl : (dialLoop (env.dial addr (py2div cfg.connect_timeout_ms 1000))
            cfg.max_connect_retry 0 (cfg.max_connect_retry + 1)).1 with
        | error e =>
          simp only [hdl]
          exact ⟨rfl, Or.inr trivial⟩
        | ok s₀ =>
          simp only [hdl]
          exact ⟨rfl, Or.inr trivial⟩
  refine ⟨?_, ?_, ?_⟩
  · intro rs h
    have key1 := key.1
    rw [h] at key1
    simpa [Except.map] using key1
  · intro hd
    rcases key.2 with h | h
    · exact absurd h hd
    · exact h
  · intro ms h0 h1
    unfold py2div
    rw [Int.fdiv_eq_ediv _ (by norm_num)]
    exact Int.ediv_eq_zero_of_lt h0 h1

/-- Environment for the timeout witness: the dial succeeds immediately. -/
def c10Env : ConnectEnv :=
  { now := 100
    sockEnv := fun _ => ⟨("a", 1), false, false⟩
    dial := fun _ _ _ => .ok 7
    rlimit := .error .importError
    rand := fun _ _ => 1/2
    ctxProtected := 0
    wrap := id }

/-- Endpoint config with sub-second millisecond timeouts. -/
def c10Cfg : EndpointConfig :=
  { connect_timeout_ms := 800, response_timeout_ms := 500, max_connect_retry := 0,
    transient_markdown_enabled := false }

theorem connect_timeout_integer_division_witness :
    (ConnectionManager._connect_to_address c10Env c10Cfg false
        ConnectionManager.init ("a", 1)).2.2 = .ok ⟨7, py2div 500 1000⟩ ∧
    py2div 500 1000 = 0 ∧
    (ConnectionManager._connect_to_address c10Env c10Cfg false
        ConnectionManager.init ("a", 1)).2.1.connect_timeout_used = some (py2div 800 1000) ∧
    py2div 999 1000 = 0 := by
  have hrun : (ConnectionManager._connect_to_address c10Env c10Cfg false
      ConnectionManager.init ("a", 1)).2.2 = .ok ⟨7, py2div 500 1000⟩ := by
    norm_num [ConnectionManager._connect_to_address, SockPool.acquire, SockPool.cull,
      SockPool.init, cullStep1, dictSet, dictDel, List.lookup, dialLoop,
      ConnectionManager.init, ConnectOut.empty, ServerModel.init, ServerModel.sock_in_use,
      beq_eq_decide, c10Env, c10Cfg]
  have hdials : (ConnectionManager._connect_to_address c10Env c10Cfg false
      ConnectionManager.init ("a", 1)).2.1.dials = 1 := by
    norm_num [ConnectionManager._connect_to_address, SockPool.acquire, SockPool.cull,
      SockPool.init, cullStep1, dictSet, dictDel, List.lookup, dialLoop,
      ConnectionManager.init, ConnectOut.empty, ServerModel.init, ServerModel.sock_in_use,
      beq_eq_decide, c10Env, c10Cfg]
  have h := connect_timeout_integer_division c10Env c10Cfg false ConnectionManager.init ("a", 1)
  refine ⟨hrun, h.2.2 500 (by norm_num) (by norm_num), ?_,
    h.2.2 999 (by norm_num) (by norm_num)⟩
  have h3 := h.2.1 (by rw [hdials]; exact one_ne_zero)
  simpa [c10Cfg] using h3

/-- Claim C7: a `get_connection` with exactly one candidate address propagates
the underlying transport error of the failed dial verbatim; with two or more
candidates, all failing, it raises `MultiConnectFailure` carrying the
per-address `(address, error)` pairs in attempt order. -/
theorem get_connection_error_propagation (env : ConnectEnv)
    (address_groups : List (String × AddressGroup)) (opscfg_revmap : Addr → Option String)
    (get_endpoint_config : Option String → EndpointConfig)
    (cm : ConnectionManager) (name : String) (ssl : Bool) (g : AddressGroup)
    (errOf : Addr → SockErr)
    (hgrp : address_groups.lookup name = some g)
    (hfail : ∀ cm' a, a ∈ g.connect_ordering env.rand →
      (ConnectionManager._connect_to_address env (get_endpoint_config (some name)) ssl cm' a).2.2
        = .error (errOf a))
    (hadm : ¬(MAX_CONNECTIONS env.rlimit ≤
      Nat.cast (List.sum (List.map
        (fun a => (Option.getD
            (List.lookup a (List.foldl
              (fun d a => if (d.lookup a).isSome then d else dictSet d a (ServerModel.init a))
              cm.server_models (g.connect_ordering env.rand)))
            (ServerModel.init a)).active_connections.length)
        (g.connect_ordering env.rand))))) :
    (∀ a, g.connect_ordering env.rand = [a] →
      (ConnectionManager.get_connection env address_groups opscfg_revmap get_endpoint_config
          cm (.inl name) ssl).2.2 = .error (errOf a)) ∧
    (2 ≤ (g.connect_ordering env.rand).length →
      (ConnectionManager.get_connection env address_groups opscfg_revmap get_endpoint_config
          cm (.inl name) ssl).2.2
        = .error (.multiConnectFailure
            ((g.connect_ordering env.rand).map (fun a => (a, errOf a))))) := by
  constructor
  · intro a ha
    unfold ConnectionManager.get_connection
    simp only [hgrp]
    rw [if_neg hadm]
    rw [ha]
    have hb : (([a] : List Addr).length == 1) = true := rfl
    rw [hb]
    exact attemptLoop_single env (get_endpoint_config (some name)) ssl _ ConnectOut.empty
      a [] [] (errOf a) (hfail _ a (by rw [ha]; exact List.mem_singleton_self a))
  · intro hlen
    unfold ConnectionManager.get_connection
    simp only [hgrp]
    rw [if_neg hadm]
    have hb : (((g.connect_ordering env.rand).length == 1) = false) := by
      rw [beq_eq_false_iff_ne]
      omega
    rw [hb]
    have := attemptLoop_all_fail env (get_endpoint_config (some name)) ssl errOf
      (g.connect_ordering env.rand)
      ⟨cm.sockpools,
        List.foldl (fun d a => if (d.lookup a).isSome then d else dictSet d a (ServerModel.init a))
          cm.server_models (g.connect_ordering env.rand),
        cm.sock_protected⟩
      ConnectOut.empty [] hfail
    simpa using this

/-- Environment for the propagation witness: every socket descriptor invalid
(so pools never hit) and every dial refused with a per-port transport error. -/
def c7Env : ConnectEnv :=
  { now := 100
    sockEnv := fun _ => ⟨("a", 1), false, false⟩
    dial := fun a _ _ => .error (.transportError a.2)
    rlimit := .error .importError
    rand := fun _ _ => 1/2
    ctxProtected := 0
    wrap := id }

/-- Address groups: one single-candidate name and one two-candidate name. -/
def c7Groups : List (String × AddressGroup) :=
  [("single", ⟨[[(1, ("a", 1))]]⟩), ("multi", ⟨[[(1, ("b", 2))], [(1, ("c", 3))]]⟩)]

/-- Endpoint config with markdown disabled and no retries. -/
def c7Cfg : EndpointConfig :=
  { connect_timeout_ms := 5000, response_timeout_ms := 5000, max_connect_retry := 0,
    transient_markdown_enabled := false }

theorem get_connection_error_propagation_witness :
    (ConnectionManager.get_connection c7Env c7Groups (fun _ => none) (fun _ => c7Cfg)
        ConnectionManager.init (.inl "single") false).2.2
      = .error (.transportError 1) ∧
    (ConnectionManager.get_connection c7Env c7Groups (fun _ => none) (fun _ => c7Cfg)
        ConnectionManager.init (.inl "multi") false).2.2
      = .error (.multiConnectFailure
          [(("b", 2), .transportError 2), (("c", 3), .transportError 3)]) := by
  have hord1 : AddressGroup.connect_ordering c7Env.rand ⟨[[(1, ("a", 1))]]⟩ = [("a", 1)] := by
    simp [AddressGroup.connect_ordering, connectOrderingAux, tierKeys, ssort, sinsert]
  have hord2 : AddressGroup.connect_ordering c7Env.rand ⟨[[(1, ("b", 2))], [(1, ("c", 3))]]⟩
      = [("b", 2), ("c", 3)] := by
    simp [AddressGroup.connect_ordering, connectOrderingAux, tierKeys, ssort, sinsert]
  constructor
  · have h := (get_connection_error_propagation c7Env c7Groups (fun _ => none)
      (fun _ => c7Cfg) ConnectionManager.init "single" false ⟨[[(1, ("a", 1))]]⟩
      (fun a => .transportError a.2) rfl
      (fun cm' a _ => connect_fails_generic c7Env c7Cfg false a
        (fun _ => .transportError a.2) (fun s => rfl) rfl (fun i => rfl) cm')
      (by
        have hmc : MAX_CONNECTIONS (Except.error PyErr.importError) = 800 := rfl
        norm_num [c7Env, hmc, AddressGroup.connect_ordering,
          connectOrderingAux, tierKeys, ssort, sinsert, dictSet, List.lookup, beq_eq_decide,
          ServerModel.init, ConnectionManager.init])).1
    exact h ("a", 1) hord1
  · have h := (get_connection_error_propagation c7Env c7Groups (fun _ => none)
      (fun _ => c7Cfg) ConnectionManager.init "multi" false
      ⟨[[(1, ("b", 2))], [(1, ("c", 3))]]⟩
      (fun a => .transportError a.2) rfl
      (fun cm' a _ => connect_fails_generic c7Env c7Cfg false a
        (fun _ => .transportError a.2) (fun s => rfl) rfl (fun i => rfl) cm')
      (by
        have hmc : MAX_CONNECTIONS (Except.error PyErr.importError) = 800 := rfl
        norm_num [c7Env, hmc, AddressGroup.connect_ordering,
          connectOrderingAux, tierKeys, ssort, sinsert, dictSet, List.lookup, beq_eq_decide,
          ServerModel.init, ConnectionManager.init])).2
    have h2 := h (by rw [hord2]; norm_num)
    rw [hord2] at h2
    simpa using h2

theorem sockpool_release_retain (env : Sock → SockInfo) (now : ℚ) (p : SockPool)
    (sock : Sock)
    (hv : (env sock).valid = true) (hr : (env sock).readable = false)
    (hcap1 : (((p.free_socks_by_addr.lookup (env sock).peer).getD []) ++ [sock]).length
        < (p.max_socks_by_addr.lookup (env sock).peer).getD p.default_max_socks_per_addr)
    (hcap2 : p.total_sockets + 1 < p.max_sockets) :
    SockPool.release env now p sock =
      ({ p with
          free_socks_by_addr := dictSet p.free_socks_by_addr (env sock).peer
            (((p.free_socks_by_addr.lookup (env sock).peer).getD []) ++ [sock])
          sock_idle_times := dictSet p.sock_idle_times sock now
          total_sockets := p.total_sockets + 1 }, []) := by
  unfold SockPool.release
  simp only [hv, hr, Bool.not_true, Bool.false_eq_true, ite_false, if_false]
  rw [if_neg (by omega), if_neg (by omega)]

/-- Claim C1 (amended): `release_connection` does not touch any ServerModel
active set: it only hands the socket back to the pool selected by the socket
protected-identity tag.  When the pool retains the socket (valid, not readable,
caps not reached) the socket sits in that pool free list afterwards while every
active set, and the tag map, is exactly as before the call. -/
theorem release_connection_keeps_active_sets (env : ConnectEnv) (cm : ConnectionManager)
    (sock : Sock) (pool : SockPool)
    (hp : cm.sockpools.lookup ((cm.sock_protected.lookup sock).getD 0) = some pool)
    (hv : (env.sockEnv sock).valid = true)
    (hr : (env.sockEnv sock).readable = false)
    (hcap1 : (((pool.free_socks_by_addr.lookup (env.sockEnv sock).peer).getD [])
          ++ [sock]).length
        < (pool.max_socks_by_addr.lookup (env.sockEnv sock).peer).getD
            pool.default_max_socks_per_addr)
    (hcap2 : pool.total_sockets + 1 < pool.max_sockets) :
    ∃ cm₂ : ConnectionManager,
      ConnectionManager.release_connection env cm sock = .ok (cm₂, []) ∧
      cm₂.server_models = cm.server_models ∧
      cm₂.sock_protected = cm.sock_protected ∧
      sock ∈ (((cm₂.sockpools.lookup ((cm.sock_protected.lookup sock).getD 0)).getD
          pool).free_socks_by_addr.lookup (env.sockEnv sock).peer).getD [] := by
  unfold ConnectionManager.release_connection
  simp only [hp]
  rw [sockpool_release_retain env.sockEnv env.now pool sock hv hr hcap1 hcap2]
  refine ⟨_, rfl, rfl, rfl, ?_⟩
  simp [dictSet_lookup_self]

/-- Environment for the active-set scenario: sockets valid and quiet, the dial
yields socket 7 immediately. -/
def c1Env : ConnectEnv :=
  { now := 100
    sockEnv := fun _ => ⟨("a", 1), false, true⟩
    dial := fun _ _ _ => .ok 7
    rlimit := .error .importError
    rand := fun _ _ => 1/2
    ctxProtected := 1
    wrap := id }

/-- One logical name resolving to a single address. -/
def c1Groups : List (String × AddressGroup) := [("svc", ⟨[[(1, ("a", 1))]]⟩)]

/-- Endpoint config for the active-set scenario. -/
def c1Cfg : EndpointConfig :=
  { connect_timeout_ms := 5000, response_timeout_ms := 5000, max_connect_retry := 0,
    transient_markdown_enabled := false }

/-- Manager state after `get_connection` handed out socket 7. -/
def c1St₁ : ConnectionManager :=
  (ConnectionManager.get_connection c1Env c1Groups (fun _ => none) (fun _ => c1Cfg)
    ConnectionManager.init (.inl "svc") false).1

/-- Claim C1 (counterexample): socket 7 is returned by `get_connection` and
registered in the ServerModel active set for ("a", 1); after
`release_connection` retains it as idle in the pool free list, it STILL
appears in that active set, so a transport sits in an active set and a free
list at the same time, and release does not end its active-set membership. -/
theorem released_socket_still_active :
    (ConnectionManager.get_connection c1Env c1Groups (fun _ => none) (fun _ => c1Cfg)
        ConnectionManager.init (.inl "svc") false).2.2 = .ok ⟨7, 5⟩ ∧
    ((c1St₁.server_models.lookup ("a", 1)).getD
        (ServerModel.init ("a", 1))).active_connections.lookup 7 = some 100 ∧
    (match ConnectionManager.release_connection c1Env c1St₁ 7 with
     | .ok st₂killed =>
        st₂killed.2 = [] ∧
        (((st₂killed.1.sockpools.lookup 0).getD
            (SockPool.init (1/4) 800)).free_socks_by_addr.lookup ("a", 1)).getD [] = [7] ∧
        ((st₂killed.1.server_models.lookup ("a", 1)).getD
            (ServerModel.init ("a", 1))).active_connections.lookup 7 = some 100
     | .error _ => False) := by
  have hmc : MAX_CONNECTIONS (Except.error PyErr.importError) = 800 := rfl
  have hst : c1St₁ =
      ⟨[(0, SockPool.init (1/4) 800)],
       [(("a", 1), ⟨0, [(7, 100)], ("a", 1)⟩)], [(7, 0)]⟩ := by
    norm_num [c1St₁, ConnectionManager.get_connection, ConnectionManager.attemptLoop,
      ConnectionManager._connect_to_address, SockPool.acquire, SockPool.cull, SockPool.init,
      cullStep1, dictSet, dictDel, List.lookup, dialLoop, ConnectionManager.init,
      ConnectOut.empty, ConnectOut.merge, ServerModel.init, ServerModel.sock_in_use,
      AddressGroup.connect_ordering, connectOrderingAux, tierKeys, ssort, sinsert,
      beq_eq_decide, c1Env, c1Groups, c1Cfg, hmc]
  refine ⟨?_, ?_, ?_⟩
  · norm_num [ConnectionManager.get_connection, ConnectionManager.attemptLoop,
      ConnectionManager._connect_to_address, SockPool.acquire, SockPool.cull, SockPool.init,
      cullStep1, dictSet, dictDel, List.lookup, dialLoop, ConnectionManager.init,
      ConnectOut.empty, ConnectOut.merge, ServerModel.init, ServerModel.sock_in_use,
      AddressGroup.connect_ordering, connectOrderingAux, tierKeys, ssort, sinsert,
      beq_eq_decide, c1Env, c1Groups, c1Cfg, hmc, py2div, Int.fdiv]
  · rw [hst]
    norm_num [List.lookup, ServerModel.init, beq_eq_decide]
  · rw [hst]
    norm_num [ConnectionManager.release_connection, SockPool.release, SockPool.init,
      dictSet, dictDel, List.lookup, pyMaxList, pyMax, beq_eq_decide, c1Env,
      ServerModel.init]

/-- Manager state with socket 7 active for ("a", 1), tagged with the
null-protected pool, which is empty. -/
def c1St : ConnectionManager :=
  { sockpools := [(0, SockPool.init (1/4) 800)]
    server_models := [(("a", 1),
      { last_error := 0, active_connections := [(7, 100)], address := ("a", 1) })]
    sock_protected := [(7, 0)] }

theorem release_connection_keeps_active_sets_witness :
    c1St.sockpools.lookup ((c1St.sock_protected.lookup 7).getD 0)
        = some (SockPool.init (1/4) 800) ∧
    (c1Env.sockEnv 7).valid = true ∧
    (match ConnectionManager.release_connection c1Env c1St 7 with
     | .ok r => r.2 = [] ∧ r.1.server_models = c1St.server_models ∧
         7 ∈ (((r.1.sockpools.lookup 0).getD
            (SockPool.init (1/4) 800)).free_socks_by_addr.lookup ("a", 1)).getD []
     | .error _ => False) := by
  obtain ⟨cm₂, h1, h2, _, h4⟩ := release_connection_keeps_active_sets c1Env c1St 7
    (SockPool.init (1/4) 800) rfl rfl rfl (by decide) (by decide)
  refine ⟨rfl, rfl, ?_⟩
  rw [h1]
  exact ⟨rfl, h2, h4⟩
